import Mathlib

/-!
# grafanacli: the greet command and its Loki log sink

A shallow embedding of the three Go source files of the repository:

* `cli/internal/telemetry/loki.go`: `LokiWriter.Write`, `LogCommandExecution`;
* `cli/main.go`: the greet command that logs through the telemetry package and
  terminates the process itself (`os.Exit`);
* `main.go`: the greet command that returns its error to the command framework.

Conventions of the embedding.

* A Go `string` is a Lean `String` (a sequence of runes); a byte buffer is
  represented by its text and its Go length is the UTF-8 byte size.
* Everything the process does to the outside world is recorded, in program
  order, in a list of `Effect`s; `os.Exit` ends that list and fixes the exit code.
* The values returned by the random source are inputs: `r` is what the first
  call returns and `r2` what the second call returns. They are rationals; the
  comparisons `r < 0.1` and `r2 < 0.5` of the source are decided exactly as on
  rationals (no `float64` lies strictly between one tenth and the `float64`
  constant `0.1`, and one half is a `float64`).
* Readings of the wall clock that only end up in time stamps are inputs as well.
* What the Go standard library answers for building and sending the HTTP
  request is given by a `Transport`.
-/

namespace Unicode

/-- Go `unicode.IsSpace`: the Latin-1 spaces and the runes with the Unicode
White_Space property. -/
def IsSpace (r : Char) : Bool :=
  let n := r.toNat
  (9 ≤ n && n ≤ 13) || n == 32 || n == 0x85 || n == 0xA0 || n == 0x1680 ||
  (0x2000 ≤ n && n ≤ 0x200A) || n == 0x2028 || n == 0x2029 || n == 0x202F ||
  n == 0x205F || n == 0x3000

/-- Go `unicode.ToUpper`: ASCII letters are shifted by the code itself, every
other rune goes through the Unicode case table `tbl`, which is a parameter. -/
def ToUpper (tbl : Char → Char) (r : Char) : Char :=
  if r.toNat ≤ 127 then
    if 97 ≤ r.toNat ∧ r.toNat ≤ 122 then Char.ofNat (r.toNat - 32) else r
  else tbl r

end Unicode

namespace Strings

/-- Go `strings.TrimSpace`: the string without its leading and trailing runes
that satisfy `unicode.IsSpace`. -/
def TrimSpace (s : String) : String :=
  ⟨(s.data.dropWhile Unicode.IsSpace).rdropWhile Unicode.IsSpace⟩

/-- Go `strings.ToUpper`: every rune mapped through `unicode.ToUpper`. -/
def ToUpper (tbl : Char → Char) (s : String) : String :=
  ⟨s.data.map (Unicode.ToUpper tbl)⟩

end Strings

namespace Strconv

/-- Go `strconv.FormatInt(i, 10)`. -/
def FormatInt (i : Int) : String := toString i

end Strconv

/-! ## Log events (zerolog) and process effects -/

/-- Severity of a zerolog event. -/
inductive Level
  | debug | info | warn | error
  deriving DecidableEq, Repr

/-- Value of a field of a structured event. -/
inductive Value
  | str (s : String)
  | strs (l : List String)
  | dict (m : List (String × String))
  | time (unixNano : Int)
  | dur (nanos : Int)
  deriving DecidableEq, Repr

/-- One structured event handed to the logger by `Msg`: level, the fields in the
order they were added, and the message. -/
structure Event where
  level : Level
  fields : List (String × Value)
  msg : String
  deriving DecidableEq, Repr

/-- Observable action of the process: an event handed to the logger (which
writes it to the console and, when configured, to Loki), a line printed with
`fmt.Println`, a line written with `fmt.Fprintln(os.Stderr, ...)`, or a value
taken from the random source. -/
inductive Effect
  | log (e : Event)
  | stdout (line : String)
  | stderr (line : String)
  | draw (v : ℚ)
  deriving DecidableEq

/-- Run of the process: its effects in program order and its exit code. -/
structure Outcome where
  effects : List Effect
  exitCode : Nat
  deriving DecidableEq

namespace telemetry

/-- Source `lokiStream`. -/
structure lokiStream where
  Stream : List (String × String)
  Values : List (List String)
  deriving DecidableEq, Repr

/-- Source `lokiPushRequest`: the JSON payload expected by Loki. -/
structure lokiPushRequest where
  Streams : List lokiStream
  deriving DecidableEq, Repr

/-- Source `LokiWriter`; the HTTP client with its fixed timeout is part of the
`Transport`. -/
structure LokiWriter where
  endpoint : String
  deriving DecidableEq, Repr

/-- Source `NewLokiWriter`. -/
def NewLokiWriter (endpoint : String) : LokiWriter := { endpoint := endpoint }

/-- An HTTP request as built by `http.NewRequestWithContext`, with the header
set by `Write`. -/
structure Request where
  method : String
  url : String
  body : String
  contentType : String
  deriving DecidableEq, Repr

/-- Answers of the Go standard library during one `Write`: the JSON encoding
of the payload (it cannot fail on a payload made of strings), the result of
`http.NewRequestWithContext` (an error when the URL does not parse) and the
result of `client.Do` (an error, or the status code of the response). -/
structure Transport where
  marshal : lokiPushRequest → String
  newRequest : (method url body : String) → Except String Request
  clientDo : Request → Except String Int

/-- The payload built by `Write` (source lines 43 to 57) from the buffer and
the clock reading. -/
def buildPayload (p : String) (now : Int) : lokiPushRequest :=
  let logLine := Strings.TrimSpace p
  let ts := Strconv.FormatInt now
  { Streams := [{ Stream := [("job", "mycli")], Values := [[ts, logLine]] }] }

/-- Source `LokiWriter.Write`: returns `(n, err)`, the error being `none` for
Go `nil`. -/
def LokiWriter.Write (lw : LokiWriter) (net : Transport) (p : String) (now : Int) :
    Nat × Option String :=
  let payload := buildPayload p now
  let body := net.marshal payload
  match net.newRequest "POST" lw.endpoint body with
  | .error err => (p.utf8ByteSize, some err)
  | .ok req =>
    let req := { req with contentType := "application/json" }
    match net.clientDo req with
    | .error _ => (p.utf8ByteSize, none)
    | .ok status =>
      if status < 200 ∨ status ≥ 300 then (p.utf8ByteSize, none)
      else (p.utf8ByteSize, none)

/-- Source `LogCommandExecution`: the events it hands to the logger. The event
is created at info level, the error field is added only for a non-nil error. -/
def LogCommandExecution (command : String) (args : List String)
    (flags : List (String × String)) (output : String) (err : Option String)
    (now : Int) : List Event :=
  let fields : List (String × Value) :=
    [("command", .str command), ("arguments", .strs args), ("flags", .dict flags),
     ("output", .str output), ("timestamp", .time now)]
  match err with
  | some e =>
    [{ level := .info, fields := fields ++ [("error", .str e)],
       msg := "Command execution failed" }]
  | none =>
    [{ level := .info, fields := fields, msg := "Command executed successfully" }]

end telemetry

/-- Readings of the wall clock that end up in time stamps during one run of
the greet command: the one taken inside `LogCommandExecution` and the duration
measured by `time.Since(start)`. -/
structure Clock where
  logNow : Int
  elapsed : Int

namespace Cli

/-- Source `randFloat` of `cli/main.go`, as a function of the clock reading
`time.Now().UnixNano()`; Go `%` truncates toward zero. -/
def randFloat (unixNano : Int) : ℚ := ((Int.tmod unixNano 1000 : Int) : ℚ) / 1000

/-- Source `greetCmd.Run` of `cli/main.go`, followed by the normal end of `main`
(exit code 0) when `Run` returns. `r` and `r2` are the values of the first and
second call of `randFloat`. -/
def greetRun (tbl : Char → Char) (clk : Clock) (name : String) (shout : Bool)
    (args : List String) (r r2 : ℚ) : Outcome :=
  if name = "" then
    { effects := [.log { level := .error, fields := [], msg := "--name flag is required" },
                  .stderr "Error: --name flag is required"],
      exitCode := 1 }
  else
    let message := "Hello and welcome " ++ name ++ "!"
    let flags := [("name", name), ("shout", toString shout)]
    let done (pre : List Effect) (message : String) : Outcome :=
      { effects := pre ++
          (telemetry.LogCommandExecution "greet" args flags message none clk.logNow).map .log ++
          [.stdout message,
           .log { level := .info, fields := [("duration", .dur clk.elapsed)],
                  msg := "Command completed" }],
        exitCode := 0 }
    if shout then
      let message := Strings.ToUpper tbl message
      if r < 1 / 10 then
        if r2 < 1 / 2 then
          let errMsg := "400 Bad Request"
          { effects := [.draw r, .draw r2,
              .log { level := .error, fields := [("name", .str name)], msg := errMsg },
              .stderr errMsg] ++
              (telemetry.LogCommandExecution "greet" args flags "" (some errMsg)
                clk.logNow).map .log,
            exitCode := 1 }
        else
          let message := "HE--<BLERGH>"
          { effects := [.draw r, .draw r2,
              .log { level := .warn, fields := [("name", .str name)],
                     msg := "Simulated cough output" }] ++
              (telemetry.LogCommandExecution "greet" args flags message none
                clk.logNow).map .log ++
              [.stdout message],
            exitCode := 0 }
      else done [.draw r] message
    else done [] message

end Cli

namespace Root

/-- Source `greetCmd.RunE` of `main.go` followed by the end of `main`: an error
returned by `RunE` comes back from `rootCmd.Execute`, is printed with
`fmt.Println` and the process exits with code 1 (what the command framework
itself writes about the error is not recorded). `r` and `r2` are the values of
the first and second call of `rand.Float64`. -/
def greetRun (tbl : Char → Char) (name : String) (shout : Bool) (r r2 : ℚ) : Outcome :=
  if name = "" then
    { effects := [.stderr "Error: --name flag is required"], exitCode := 1 }
  else
    let message := "Hello and welcome, " ++ name ++ "!"
    if shout then
      let message := Strings.ToUpper tbl message
      if r < 1 / 10 then
        if r2 < 1 / 2 then
          { effects := [.draw r, .draw r2, .stdout "400 Bad Request"], exitCode := 1 }
        else
          { effects := [.draw r, .draw r2, .stdout "HE--<BLERGH>"], exitCode := 0 }
      else { effects := [.draw r, .stdout message], exitCode := 0 }
    else { effects := [.stdout message], exitCode := 0 }

end Root

/-! ## Observations on an outcome -/

/-- The lines printed with `fmt.Println`, in order. -/
def Outcome.printed (o : Outcome) : List String :=
  o.effects.filterMap fun e => match e with
    | .stdout l => some l
    | _ => none

/-- The lines written to standard error, in order. -/
def Outcome.errors (o : Outcome) : List String :=
  o.effects.filterMap fun e => match e with
    | .stderr l => some l
    | _ => none

/-- The values drawn from the random source, in order. -/
def Outcome.draws (o : Outcome) : List ℚ :=
  o.effects.filterMap fun e => match e with
    | .draw v => some v
    | _ => none

/-- The events handed to the logger, in order. -/
def Outcome.events (o : Outcome) : List Event :=
  o.effects.filterMap fun e => match e with
    | .log ev => some ev
    | _ => none

/-- An execution record is an event that carries a `command` field: exactly the
events built by `LogCommandExecution`. -/
def Event.isRecord (e : Event) : Bool :=
  e.fields.any fun kv => kv.1 == "command"

/-- The execution records of an outcome, in order. -/
def Outcome.records (o : Outcome) : List Event :=
  o.events.filter Event.isRecord

/-! ## Auxiliary facts on lists and strings -/

theorem List.rdropWhile_append_rtakeWhile_self {α : Type} (p : α → Bool) (l : List α) :
    l.rdropWhile p ++ l.rtakeWhile p = l := by
  unfold List.rdropWhile List.rtakeWhile
  rw [← List.reverse_append, List.takeWhile_append_dropWhile, List.reverse_reverse]

theorem List.head?_rdropWhile_dropWhile_not {α : Type} (p : α → Bool) (l : List α) (c : α)
    (h : ((l.dropWhile p).rdropWhile p).head? = some c) : p c = false := by
  have hpre : (l.dropWhile p).rdropWhile p <+: l.dropWhile p := List.rdropWhile_prefix p _
  obtain ⟨t, ht⟩ := hpre
  have hnot := List.head?_dropWhile_not p l
  cases hm : (l.dropWhile p).rdropWhile p with
  | nil => rw [hm] at h; simp at h
  | cons a as =>
    rw [hm] at h ht
    simp only [List.head?_cons, Option.some.injEq] at h
    rw [← ht] at hnot
    simp only [List.cons_append, List.head?_cons] at hnot
    rw [← h]; exact hnot

theorem List.getLast?_rdropWhile_not {α : Type} (p : α → Bool) (l : List α) (c : α)
    (h : (l.rdropWhile p).getLast? = some c) : p c = false := by
  have hne : l.rdropWhile p ≠ [] := by
    intro h0; rw [h0] at h; simp at h
  have hlast := List.rdropWhile_last_not p l hne
  rw [List.getLast?_eq_getLast _ hne] at h
  simp only [Option.some.injEq] at h
  rw [← h]; simpa using hlast

theorem List.trim_eq_self {α : Type} (p : α → Bool) (l : List α)
    (hfirst : ∀ c, l.head? = some c → p c = false)
    (hlast : ∀ c, l.getLast? = some c → p c = false) :
    (l.dropWhile p).rdropWhile p = l := by
  have h1 : l.dropWhile p = l := by
    cases l with
    | nil => rfl
    | cons a as =>
      have := hfirst a rfl
      simp [List.dropWhile_cons, this]
  rw [h1, List.rdropWhile_eq_self_iff]
  intro hl
  have := hlast (l.getLast hl) (List.getLast?_eq_getLast _ hl)
  simp [this]

namespace Strings

theorem ToUpper_append (tbl : Char → Char) (a b : String) :
    ToUpper tbl (a ++ b) = ToUpper tbl a ++ ToUpper tbl b := by
  apply String.ext
  simp [ToUpper, String.data_append]

theorem ToUpper_greeting (tbl : Char → Char) :
    ToUpper tbl "Hello and welcome " = "HELLO AND WELCOME " := by
  rfl

theorem fmt_bool_true : toString true = "true" := rfl

theorem fmt_bool_false : toString false = "false" := rfl

theorem ToUpper_bang (tbl : Char → Char) : ToUpper tbl "!" = "!" := by
  rfl

end Strings

/-! ## The greet command of `cli/main.go` -/

/-- Claim C2. For a non-empty name and without the shout flag the command
prints exactly the line "Hello and welcome <name>!", ends with exit code 0,
draws nothing from the random source, and its whole outcome is the same for
every pair of values the random source could have returned. -/
theorem greet_plain_prints_greeting (tbl : Char → Char) (clk : Clock) (name : String)
    (args : List String) (r r2 : ℚ) (hname : name ≠ "") :
    (Cli.greetRun tbl clk name false args r r2).printed
        = ["Hello and welcome " ++ name ++ "!"] ∧
    (Cli.greetRun tbl clk name false args r r2).exitCode = 0 ∧
    (Cli.greetRun tbl clk name false args r r2).draws = [] ∧
    ∀ s s2 : ℚ, Cli.greetRun tbl clk name false args s s2
        = Cli.greetRun tbl clk name false args r r2 := by
  refine ⟨?_, ?_, ?_, ?_⟩ <;>
    simp [Cli.greetRun, hname, Outcome.printed, Outcome.draws,
      telemetry.LogCommandExecution]

/-- Witness of C2 at the name "Bob". -/
theorem greet_plain_prints_greeting_witness :
    "Bob" ≠ "" ∧
    (Cli.greetRun id ⟨0, 0⟩ "Bob" false [] (1 / 20) (3 / 10)).printed
        = ["Hello and welcome " ++ "Bob" ++ "!"] ∧
    (Cli.greetRun id ⟨0, 0⟩ "Bob" false [] (1 / 20) (3 / 10)).exitCode = 0 ∧
    (Cli.greetRun id ⟨0, 0⟩ "Bob" false [] (1 / 20) (3 / 10)).draws = [] ∧
    ∀ s s2 : ℚ, Cli.greetRun id ⟨0, 0⟩ "Bob" false [] s s2
        = Cli.greetRun id ⟨0, 0⟩ "Bob" false [] (1 / 20) (3 / 10) :=
  ⟨by decide, greet_plain_prints_greeting id ⟨0, 0⟩ "Bob" [] (1 / 20) (3 / 10) (by decide)⟩

/-- Claim C3. For a non-empty name with the shout flag, a first draw below 0.1
and a second draw below 0.5, the command exits with code 1, writes
"400 Bad Request" to standard error, prints nothing to standard output, and
logs one execution record with empty output and the error "400 Bad Request". -/
theorem greet_shout_bad_request (tbl : Char → Char) (clk : Clock) (name : String)
    (args : List String) (r r2 : ℚ) (hname : name ≠ "") (hr : r < 1 / 10)
    (hr2 : r2 < 1 / 2) :
    (Cli.greetRun tbl clk name true args r r2).exitCode = 1 ∧
    (Cli.greetRun tbl clk name true args r r2).errors = ["400 Bad Request"] ∧
    (Cli.greetRun tbl clk name true args r r2).printed = [] ∧
    (Cli.greetRun tbl clk name true args r r2).records =
      [{ level := .info,
         fields := [("command", .str "greet"), ("arguments", .strs args),
                    ("flags", .dict [("name", name), ("shout", "true")]),
                    ("output", .str ""), ("timestamp", .time clk.logNow),
                    ("error", .str "400 Bad Request")],
         msg := "Command execution failed" }] := by
  rw [one_div] at hr hr2
  refine ⟨?_, ?_, ?_, ?_⟩ <;>
    simp [Cli.greetRun, hname, hr, hr2, Outcome.printed, Outcome.errors, Outcome.records,
      Outcome.events, Event.isRecord, Strings.fmt_bool_true, telemetry.LogCommandExecution]

/-- Witness of C3 at draws 0.05 and 0.3, as `randFloat` returns them at clock
readings ending in 050 and 300. -/
theorem greet_shout_bad_request_witness :
    "Bob" ≠ "" ∧ Cli.randFloat 50 < 1 / 10 ∧ Cli.randFloat 300 < 1 / 2 ∧
    (Cli.greetRun id ⟨7, 9⟩ "Bob" true ["x"] (Cli.randFloat 50) (Cli.randFloat 300)).exitCode
        = 1 ∧
    (Cli.greetRun id ⟨7, 9⟩ "Bob" true ["x"] (Cli.randFloat 50) (Cli.randFloat 300)).errors
        = ["400 Bad Request"] ∧
    (Cli.greetRun id ⟨7, 9⟩ "Bob" true ["x"] (Cli.randFloat 50) (Cli.randFloat 300)).printed
        = [] ∧
    (Cli.greetRun id ⟨7, 9⟩ "Bob" true ["x"] (Cli.randFloat 50) (Cli.randFloat 300)).records =
      [{ level := .info,
         fields := [("command", .str "greet"), ("arguments", .strs ["x"]),
                    ("flags", .dict [("name", "Bob"), ("shout", "true")]),
                    ("output", .str ""), ("timestamp", .time 7),
                    ("error", .str "400 Bad Request")],
         msg := "Command execution failed" }] :=
  ⟨by decide, by norm_num [Cli.randFloat, Int.tmod], by norm_num [Cli.randFloat, Int.tmod],
    greet_shout_bad_request id ⟨7, 9⟩ "Bob" ["x"] (Cli.randFloat 50) (Cli.randFloat 300)
      (by decide) (by norm_num [Cli.randFloat, Int.tmod])
      (by norm_num [Cli.randFloat, Int.tmod])⟩

/-- Claim C5. For the empty name the command does exactly two things, whatever
the shout flag, the arguments and the random source: it logs the error event
and writes "Error: --name flag is required" to standard error; it exits with
code 1, prints nothing to standard output, draws no random value and computes
no message (no execution record, nothing that depends on the other inputs). -/
theorem greet_empty_name_fails (tbl : Char → Char) (clk : Clock) (shout : Bool)
    (args : List String) (r r2 : ℚ) :
    (Cli.greetRun tbl clk "" shout args r r2).exitCode = 1 ∧
    (Cli.greetRun tbl clk "" shout args r r2).printed = [] ∧
    (Cli.greetRun tbl clk "" shout args r r2).errors
        = ["Error: --name flag is required"] ∧
    (Cli.greetRun tbl clk "" shout args r r2).draws = [] ∧
    (Cli.greetRun tbl clk "" shout args r r2).effects =
      [.log { level := .error, fields := [], msg := "--name flag is required" },
       .stderr "Error: --name flag is required"] := by
  refine ⟨?_, ?_, ?_, ?_, ?_⟩ <;>
    simp [Cli.greetRun, Outcome.printed, Outcome.errors, Outcome.draws]

/-- Claim C7. For a non-empty name with the shout flag, a first draw below 0.1
and a second draw of at least 0.5, the command prints exactly "HE--<BLERGH>",
ends with exit code 0, and logs one execution record with that output and no
error. -/
theorem greet_shout_cough (tbl : Char → Char) (clk : Clock) (name : String)
    (args : List String) (r r2 : ℚ) (hname : name ≠ "") (hr : r < 1 / 10)
    (hr2 : 1 / 2 ≤ r2) :
    (Cli.greetRun tbl clk name true args r r2).printed = ["HE--<BLERGH>"] ∧
    (Cli.greetRun tbl clk name true args r r2).exitCode = 0 ∧
    (Cli.greetRun tbl clk name true args r r2).records =
      [{ level := .info,
         fields := [("command", .str "greet"), ("arguments", .strs args),
                    ("flags", .dict [("name", name), ("shout", "true")]),
                    ("output", .str "HE--<BLERGH>"), ("timestamp", .time clk.logNow)],
         msg := "Command executed successfully" }] := by
  have hr2n : ¬ r2 < 1 / 2 := not_lt.mpr hr2
  rw [one_div] at hr hr2n
  refine ⟨?_, ?_, ?_⟩ <;>
    simp [Cli.greetRun, hname, hr, hr2n, Outcome.printed, Outcome.records,
      Outcome.events, Event.isRecord, Strings.fmt_bool_true, telemetry.LogCommandExecution]

/-- Witness of C7 at draws 0.05 and 0.7, as `randFloat` returns them at clock
readings ending in 050 and 700. -/
theorem greet_shout_cough_witness :
    "Bob" ≠ "" ∧ Cli.randFloat 50 < 1 / 10 ∧ 1 / 2 ≤ Cli.randFloat 700 ∧
    (Cli.greetRun id ⟨7, 9⟩ "Bob" true [] (Cli.randFloat 50) (Cli.randFloat 700)).printed
        = ["HE--<BLERGH>"] ∧
    (Cli.greetRun id ⟨7, 9⟩ "Bob" true [] (Cli.randFloat 50) (Cli.randFloat 700)).exitCode
        = 0 ∧
    (Cli.greetRun id ⟨7, 9⟩ "Bob" true [] (Cli.randFloat 50) (Cli.randFloat 700)).records =
      [{ level := .info,
         fields := [("command", .str "greet"), ("arguments", .strs []),
                    ("flags", .dict [("name", "Bob"), ("shout", "true")]),
                    ("output", .str "HE--<BLERGH>"), ("timestamp", .time 7)],
         msg := "Command executed successfully" }] :=
  ⟨by decide, by norm_num [Cli.randFloat, Int.tmod], by norm_num [Cli.randFloat, Int.tmod],
    greet_shout_cough id ⟨7, 9⟩ "Bob" [] (Cli.randFloat 50) (Cli.randFloat 700)
      (by decide) (by norm_num [Cli.randFloat, Int.tmod])
      (by norm_num [Cli.randFloat, Int.tmod])⟩

/-- Claim C8. For a non-empty name with the shout flag and a first draw of at
least 0.1, the command prints the upper-case form of "Hello and welcome <name>!",
which is "HELLO AND WELCOME " followed by the upper-case name and "!", ends with
exit code 0, logs one execution record with that output and no error, and the
first draw is the only one it takes. -/
theorem greet_shout_upper (tbl : Char → Char) (clk : Clock) (name : String)
    (args : List String) (r r2 : ℚ) (hname : name ≠ "") (hr : 1 / 10 ≤ r) :
    (Cli.greetRun tbl clk name true args r r2).printed
        = [Strings.ToUpper tbl ("Hello and welcome " ++ name ++ "!")] ∧
    Strings.ToUpper tbl ("Hello and welcome " ++ name ++ "!")
        = "HELLO AND WELCOME " ++ Strings.ToUpper tbl name ++ "!" ∧
    (Cli.greetRun tbl clk name true args r r2).exitCode = 0 ∧
    (Cli.greetRun tbl clk name true args r r2).records =
      [{ level := .info,
         fields := [("command", .str "greet"), ("arguments", .strs args),
                    ("flags", .dict [("name", name), ("shout", "true")]),
                    ("output", .str ("HELLO AND WELCOME " ++ Strings.ToUpper tbl name ++ "!")),
                    ("timestamp", .time clk.logNow)],
         msg := "Command executed successfully" }] ∧
    (Cli.greetRun tbl clk name true args r r2).draws = [r] := by
  have hrn : ¬ r < 1 / 10 := not_lt.mpr hr
  rw [one_div] at hrn
  have hup : Strings.ToUpper tbl ("Hello and welcome " ++ name ++ "!")
      = "HELLO AND WELCOME " ++ Strings.ToUpper tbl name ++ "!" := by
    rw [Strings.ToUpper_append, Strings.ToUpper_append, Strings.ToUpper_greeting,
      Strings.ToUpper_bang]
  refine ⟨?_, hup, ?_, ?_, ?_⟩
  · simp [Cli.greetRun, hname, hrn, Outcome.printed, telemetry.LogCommandExecution]
  · simp [Cli.greetRun, hname, hrn]
  · rw [← hup]
    simp [Cli.greetRun, hname, hrn, Outcome.records, Outcome.events, Event.isRecord, Strings.fmt_bool_true,
      telemetry.LogCommandExecution]
  · simp [Cli.greetRun, hname, hrn, Outcome.draws, telemetry.LogCommandExecution]

/-- Witness of C8 at the draw 0.5, as `randFloat` returns it at a clock reading
ending in 500. -/
theorem greet_shout_upper_witness :
    "Bob" ≠ "" ∧ 1 / 10 ≤ Cli.randFloat 500 ∧
    (Cli.greetRun id ⟨7, 9⟩ "Bob" true [] (Cli.randFloat 500) 0).printed
        = ["HELLO AND WELCOME BOB!"] ∧
    (Cli.greetRun id ⟨7, 9⟩ "Bob" true [] (Cli.randFloat 500) 0).exitCode = 0 ∧
    (Cli.greetRun id ⟨7, 9⟩ "Bob" true [] (Cli.randFloat 500) 0).records =
      [{ level := .info,
         fields := [("command", .str "greet"), ("arguments", .strs []),
                    ("flags", .dict [("name", "Bob"), ("shout", "true")]),
                    ("output", .str "HELLO AND WELCOME BOB!"), ("timestamp", .time 7)],
         msg := "Command executed successfully" }] ∧
    (Cli.greetRun id ⟨7, 9⟩ "Bob" true [] (Cli.randFloat 500) 0).draws
        = [Cli.randFloat 500] := by
  have h := greet_shout_upper id ⟨7, 9⟩ "Bob" [] (Cli.randFloat 500) 0 (by decide)
    (by norm_num [Cli.randFloat, Int.tmod])
  have e1 : Strings.ToUpper id ("Hello and welcome " ++ "Bob" ++ "!")
      = "HELLO AND WELCOME BOB!" := by decide
  have e2 : "HELLO AND WELCOME " ++ Strings.ToUpper id "Bob" ++ "!"
      = "HELLO AND WELCOME BOB!" := by decide
  rw [e1, e2] at h
  exact ⟨by decide, by norm_num [Cli.randFloat, Int.tmod], h.1, h.2.2.1, h.2.2.2.1, h.2.2.2.2⟩

/-- Claim C9. `LogCommandExecution` hands exactly one event to the logger. The
event is at info level whether or not an error is given; it carries the
command, the arguments, the flags and the output unchanged; it has an error
field exactly when an error is given (holding that error), and its message is
"Command execution failed" exactly when an error is given and
"Command executed successfully" otherwise. -/
theorem log_command_execution_event (command : String) (args : List String)
    (flags : List (String × String)) (output : String) (err : Option String) (now : Int) :
    (telemetry.LogCommandExecution command args flags output err now).length = 1 ∧
    ∀ e ∈ telemetry.LogCommandExecution command args flags output err now,
      e.level = Level.info ∧
      e.fields.lookup "command" = some (Value.str command) ∧
      e.fields.lookup "arguments" = some (Value.strs args) ∧
      e.fields.lookup "flags" = some (Value.dict flags) ∧
      e.fields.lookup "output" = some (Value.str output) ∧
      e.fields.lookup "error" = err.map Value.str ∧
      (e.msg = "Command execution failed" ↔ err ≠ none) ∧
      (e.msg = "Command executed successfully" ↔ err = none) := by
  cases err with
  | some e => simp [telemetry.LogCommandExecution, List.lookup]
  | none =>
    refine ⟨rfl, ?_⟩
    intro e he
    simp only [telemetry.LogCommandExecution, List.mem_singleton] at he
    subst he
    refine ⟨rfl, ?_, ?_, ?_, ?_, ?_, ?_, ?_⟩ <;> simp [List.lookup]

/-- Counterexample to C1: when the request cannot be built (here the endpoint
":" has no scheme and the library reports it), `Write` hands that error back to
its caller instead of nil. -/
theorem write_surfaces_request_error :
    (telemetry.LokiWriter.Write (telemetry.NewLokiWriter ":")
        { marshal := fun _ => "{}",
          newRequest := fun m u b =>
            if u = ":" then .error "parse \":\": missing protocol scheme"
            else .ok { method := m, url := u, body := b, contentType := "" },
          clientDo := fun _ => .ok 204 }
        "hello\n" 17)
      = (6, some "parse \":\": missing protocol scheme") := by
  decide

/-- Claim C1, amended. `Write` always reports the full buffer length. Its error
is nil whenever the request was built, whatever the delivery then does (the
HTTP call fails, the response is outside 2xx, the response is 2xx); when the
request cannot be built, the error of the construction is returned. -/
theorem write_reports_length_and_swallows_delivery (lw : telemetry.LokiWriter)
    (net : telemetry.Transport) (p : String) (now : Int) :
    (lw.Write net p now).1 = p.utf8ByteSize ∧
    (lw.Write net p now).2 =
      match net.newRequest "POST" lw.endpoint (net.marshal (telemetry.buildPayload p now)) with
      | .error e => some e
      | .ok _ => none := by
  unfold telemetry.LokiWriter.Write
  cases hreq : net.newRequest "POST" lw.endpoint (net.marshal (telemetry.buildPayload p now)) with
  | error e => simp [hreq]
  | ok req =>
    cases hdo : net.clientDo { req with contentType := "application/json" } with
    | error e => simp [hreq, hdo]
    | ok status => simp [hreq, hdo]

/-- Claim C6. The payload built by `Write` from the buffer `p` at clock reading
`t` has exactly one stream, labelled exactly with job "mycli", whose only value
is the pair of the decimal rendering of `t` and the trimmed text of `p`. The
trimmed text is `p` without a leading and a trailing run of white space, and it
neither starts nor ends with white space; hence a line that neither starts nor
ends with white space is passed on unchanged. -/
theorem write_payload_shape (p : String) (t : Int) :
    telemetry.buildPayload p t =
      { Streams := [{ Stream := [("job", "mycli")],
                      Values := [[toString t, Strings.TrimSpace p]] }] } ∧
    (∃ pre suf : String, p = pre ++ Strings.TrimSpace p ++ suf ∧
      (∀ c ∈ pre.data, Unicode.IsSpace c = true) ∧
      (∀ c ∈ suf.data, Unicode.IsSpace c = true)) ∧
    (∀ c, (Strings.TrimSpace p).data.head? = some c → Unicode.IsSpace c = false) ∧
    (∀ c, (Strings.TrimSpace p).data.getLast? = some c → Unicode.IsSpace c = false) ∧
    ((∀ c, p.data.head? = some c → Unicode.IsSpace c = false) →
      (∀ c, p.data.getLast? = some c → Unicode.IsSpace c = false) →
      Strings.TrimSpace p = p) := by
  refine ⟨rfl, ?_, ?_, ?_, ?_⟩
  · refine ⟨⟨p.data.takeWhile Unicode.IsSpace⟩,
      ⟨(p.data.dropWhile Unicode.IsSpace).rtakeWhile Unicode.IsSpace⟩, ?_, ?_, ?_⟩
    · apply String.ext
      simp only [Strings.TrimSpace, String.data_append, List.append_assoc,
        List.rdropWhile_append_rtakeWhile_self, List.takeWhile_append_dropWhile]
    · intro c hc
      exact List.mem_takeWhile_imp hc
    · intro c hc
      exact List.mem_rtakeWhile_imp hc
  · intro c hc
    exact List.head?_rdropWhile_dropWhile_not _ _ c hc
  · intro c hc
    exact List.getLast?_rdropWhile_not _ _ c hc
  · intro hfirst hlast
    apply String.ext
    exact List.trim_eq_self _ _ hfirst hlast

/-- Witness of C6 at the line "hello" of the specification and the clock
reading 17. -/
theorem write_payload_shape_witness :
    telemetry.buildPayload "hello" 17 =
      { Streams := [{ Stream := [("job", "mycli")], Values := [["17", "hello"]] }] } := by
  have h := write_payload_shape "hello" 17
  rw [h.2.2.2.2 (by decide) (by decide)] at h
  exact h.1

/-! ## The two variants of the greet command -/

theorem greeting_with_comma_differs (g : Char → Char) (hg : g ' ' ≠ g ',') (name : String) :
    (⟨("Hello and welcome " ++ name ++ "!").data.map g⟩ : String)
      ≠ ⟨("Hello and welcome, " ++ name ++ "!").data.map g⟩ := by
  intro h
  have hd := congrArg String.data h
  simp only [String.data_append, List.map_append, List.map_cons, List.cons_append,
    List.cons.injEq, true_and] at hd
  exact hg hd.1

/-- Counterexample to C10: for the name "Bob" without the shout flag the two
variants print different lines, the variant of `main.go` with a comma after
"welcome". -/
theorem greet_variants_differ_on_bob :
    (Root.greetRun id "Bob" false 0 0).printed = ["Hello and welcome, Bob!"] ∧
    (Cli.greetRun id ⟨0, 0⟩ "Bob" false [] 0 0).printed = ["Hello and welcome Bob!"] ∧
    (Root.greetRun id "Bob" false 0 0).printed
      ≠ (Cli.greetRun id ⟨0, 0⟩ "Bob" false [] 0 0).printed := by
  have h1 : (Root.greetRun id "Bob" false 0 0).printed = ["Hello and welcome, Bob!"] := by
    decide
  have h2 : (Cli.greetRun id ⟨0, 0⟩ "Bob" false [] 0 0).printed
      = ["Hello and welcome Bob!"] := by
    decide
  refine ⟨h1, h2, ?_⟩
  rw [h1, h2]
  decide

/-- Claim C10, amended. For a non-empty name and off the simulated bad-request
path both variants end with exit code 0 and each makes exactly one call of
`fmt.Println`, which prints its message line (the events that `cli/main.go`
hands to its logger are not counted here). On the garbled path both message
lines are "HE--<BLERGH>". On every other path the message line of `cli/main.go`
is "Hello and welcome <name>!" and that of `main.go` is
"Hello and welcome, <name>!", both in upper case when the shout flag is set, and
these two lines differ. -/
theorem greet_variants_agree_up_to_comma (tbl : Char → Char) (clk : Clock)
    (name : String) (shout : Bool) (args : List String) (r r2 : ℚ)
    (hname : name ≠ "") (hpath : ¬ (shout = true ∧ r < 1 / 10 ∧ r2 < 1 / 2)) :
    (Cli.greetRun tbl clk name shout args r r2).exitCode = 0 ∧
    (Root.greetRun tbl name shout r r2).exitCode = 0 ∧
    (if shout = true ∧ r < 1 / 10 then
      (Cli.greetRun tbl clk name shout args r r2).printed = ["HE--<BLERGH>"] ∧
      (Root.greetRun tbl name shout r r2).printed = ["HE--<BLERGH>"]
    else
      (Cli.greetRun tbl clk name shout args r r2).printed =
        [if shout = true then Strings.ToUpper tbl ("Hello and welcome " ++ name ++ "!")
         else "Hello and welcome " ++ name ++ "!"] ∧
      (Root.greetRun tbl name shout r r2).printed =
        [if shout = true then Strings.ToUpper tbl ("Hello and welcome, " ++ name ++ "!")
         else "Hello and welcome, " ++ name ++ "!"] ∧
      (Cli.greetRun tbl clk name shout args r r2).printed
        ≠ (Root.greetRun tbl name shout r r2).printed) := by
  cases shout
  · have hne := greeting_with_comma_differs id (by decide) name
    simp only [List.map_id] at hne
    simp [Cli.greetRun, Root.greetRun, hname, Outcome.printed,
      telemetry.LogCommandExecution]
    exact hne
  · by_cases hr : r < 1 / 10
    · have hr2 : ¬ r2 < 1 / 2 := fun h => hpath ⟨rfl, hr, h⟩
      rw [one_div] at hr hr2
      simp [Cli.greetRun, Root.greetRun, hname, hr, hr2, Outcome.printed,
        telemetry.LogCommandExecution]
    · have hne := greeting_with_comma_differs (Unicode.ToUpper tbl)
        (by simp [Unicode.ToUpper]) name
      rw [one_div] at hr
      simp [Cli.greetRun, Root.greetRun, hname, hr, Outcome.printed,
        telemetry.LogCommandExecution]
      exact hne

/-- Witness of C10 (amended) at the name "Bob" with the shout flag and the
draws 0.05 and 0.7. -/
theorem greet_variants_agree_up_to_comma_witness :
    "Bob" ≠ "" ∧ ¬ (true = true ∧ (1 / 20 : ℚ) < 1 / 10 ∧ (7 / 10 : ℚ) < 1 / 2) ∧
    (Cli.greetRun id ⟨0, 0⟩ "Bob" true [] (1 / 20) (7 / 10)).exitCode = 0 ∧
    (Root.greetRun id "Bob" true (1 / 20) (7 / 10)).exitCode = 0 ∧
    (Cli.greetRun id ⟨0, 0⟩ "Bob" true [] (1 / 20) (7 / 10)).printed = ["HE--<BLERGH>"] ∧
    (Root.greetRun id "Bob" true (1 / 20) (7 / 10)).printed = ["HE--<BLERGH>"] := by
  have h := greet_variants_agree_up_to_comma id ⟨0, 0⟩ "Bob" true [] (1 / 20) (7 / 10)
    (by decide) (by norm_num)
  rw [if_pos (by norm_num)] at h
  exact ⟨by decide, by norm_num, h.1, h.2.1, h.2.2.1, h.2.2.2⟩
